import Mathlib

/-!
Shallow embedding of `flask_restful_routing.py`.

The module has three parts:
  * `LoaderResponse` and the handler-wrapping adapter `wrapped_cls` /
    its `dispatch_request` (source lines 14-51);
  * the `Route` / `RootRoute` data model with its construction-time
    validation (source lines 54-142);
  * the recursive registration engine `register_routes`
    (source lines 144-177).

Python values appearing as URL arguments, loader results and response
bodies are modelled by the inductive `PyVal`.  Python's duck-typed
branching on `type(loader_resp)` is modelled by an inductive
`LoaderResult` whose constructors stand for the exact runtime types the
source discriminates on (`LoaderResponse`, `tuple`, `dict`, `list`, and
any other object).  The routing framework (`flask_restful.Api`) is
modelled as a list of registrations to which `add_resource` appends.
-/

/-- An opaque model of Python runtime values. -/
inductive PyVal where
  | int : Int → PyVal
  | str : String → PyVal
  | list : List PyVal → PyVal
  | obj : Nat → PyVal


/-- Keyword arguments: a Python `dict` mapping names to values. -/
abbrev Kwargs := List (String × PyVal)

/-- `LoaderResponse(body, code=200)` (source lines 14-24): a response a loader
may return to short-circuit dispatch. -/
structure LoaderResponse where
  body : PyVal
  code : Int := 200


/-- The runtime type of a loader's return value, as discriminated by the
chain of `type(loader_resp) == ...` tests in `dispatch_request`
(source lines 35-47).  `pylist` is a Python `list` (an ordered sequence
that is not exactly of type `tuple`); it falls into the final `else`
branch, like `other`. -/
inductive LoaderResult where
  | response : LoaderResponse → LoaderResult
  | tuple : List PyVal → LoaderResult
  | dict : Kwargs → LoaderResult
  | pylist : List PyVal → LoaderResult
  | other : PyVal → LoaderResult


/-- A loader: a function of the URL arguments (source line 34 calls it as
`loader(*args, **kwargs)`). -/
abbrev Loader := List PyVal → Kwargs → LoaderResult

/-- A handler class (`flask_restful.Resource` subclass): its observable
behaviour is its `dispatch_request(*args, **kwargs)` entry point, returning
a `(body, status-code)` pair. -/
structure Handler where
  dispatch_request : List PyVal → Kwargs → PyVal × Int

/-- `wrapped_cls(cls, loader).dispatch_request` (source lines 32-49):
run the loader on the incoming arguments, then
  * a `LoaderResponse` short-circuits, returning `(body, code)`;
  * a `tuple` becomes the new positional arguments, keywords cleared;
  * a `dict` becomes the new keyword arguments (positional kept as-is);
  * anything else (including a `list`) becomes the sole positional
    argument, keywords cleared;
finally delegate to the wrapped class's `dispatch_request`. -/
def wrapped_dispatch (loader : Loader) (inner : Handler)
    (args : List PyVal) (kwargs : Kwargs) : PyVal × Int :=
  match loader args kwargs with
  | .response r => (r.body, r.code)
  | .tuple vs => inner.dispatch_request vs []
  | .dict d => inner.dispatch_request args d
  | .pylist vs => inner.dispatch_request [PyVal.list vs] []
  | .other v => inner.dispatch_request [v] []

/-- A resource class before wrapping.  `name` is an identity tag; the
optional `restful_loader` field models the `restful_loader` capability a
singular resource class may expose (`hasattr(self._single, 'restful_loader')`,
source line 132). -/
structure Resource where
  name : String
  restful_loader : Option Loader

/-- The handler actually passed to `api.add_resource`: either the raw
resource class, or the class produced by `wrapped_cls(cls, loader)`. -/
inductive EffHandler where
  | raw : Resource → EffHandler
  | wrapped : Resource → Loader → EffHandler

/-- One `api.add_resource(handler, path, endpoint=endpointName)` call
(source lines 160 and 170). -/
structure Registration where
  handler : EffHandler
  path : String
  endpoint : String

/-- `endpoint.lower().endswith(c)` for a single character `c`
(source lines 112 and 140): the last character of the string, lowered,
equals `c`. -/
def lowerEndsWith (e : String) (c : Char) : Bool :=
  match e.data.getLast? with
  | some d => d.toLower == c
  | none => false

/-- `re.sub(r'[^A-Za-z0-9]', '_', endpoint)` (source line 123). -/
def safe_endpoint (e : String) : String :=
  String.mk (e.data.map (fun c => if c.isAlphanum then c else '_'))

/-- `Route._plural_endpoint` (source lines 138-142): if the endpoint,
lowered, ends in `y`, drop the last character and append `ies`;
otherwise append `s`. -/
def plural_endpoint (e : String) : String :=
  if lowerEndsWith e 'y' then String.mk e.data.dropLast ++ "ies"
  else e ++ "s"

/-- A `Route` node after a successful `__init__`: the stored fields
`_endpoint`, `_route`, `_plural`, `_single`, `_single_type`, `_loader`
(the effective loader after the `restful_loader` resolution) and
`_children` (source lines 117-130). -/
inductive Route where
  | node (endpoint route : String) (plural single : Option Resource)
      (single_type : String) (loader : Option Loader)
      (children : List Route)

/-- `Route.__init__` (source lines 106-136): validates that the endpoint
is singular (does not end in `s`, case-insensitively) and that at most one
loader source is given (the explicit `loader` argument or the single
resource's `restful_loader` capability); the surviving source becomes the
node's `_loader`.  Errors are the two `ValueError` messages of the source. -/
def Route.init (endpoint route : String) (plural single : Option Resource)
    (children : List Route) (single_type : String)
    (loader : Option Loader) : Except String Route :=
  if lowerEndsWith endpoint 's' then
    .error ("Endpoints must be singular. Passed endpoint " ++ endpoint
      ++ " with route " ++ route)
  else
    match single with
    | some s =>
      match s.restful_loader with
      | some rl =>
        match loader with
        | some _ => .error "Please specify either `single.restful_loader` or `loader`"
        | none => .ok (.node endpoint route plural single single_type (some rl) children)
      | none => .ok (.node endpoint route plural single single_type loader children)
    | none => .ok (.node endpoint route plural single single_type loader children)

/-- The parent back-reference as observed by `register_routes`
(source line 156): `none` when the node has no parent (its `_parent` is
`None`, as for top-level children of a `RootRoute`), `some l` when the
node was attached as a child of a node whose `_loader` field is `l`. -/
abbrev ParentInfo := Option (Option Loader)

mutual

/-- `Route.register_routes(api, endpoint, route)` (source lines 144-177).
The `api` is the list of registrations accumulated so far;
`add_resource` appends to it.  `parent` carries the node's `_parent`
link as a `ParentInfo`. -/
def Route.register_routes : Route → ParentInfo → List Registration →
    String → String → List Registration
  | .node ep rt pl sg st ld cs, parent, api, endpoint, route =>
    let single_endpoint := endpoint ++ ep
    let plural_endpoint' := endpoint ++ plural_endpoint ep
    let base_path := route ++ rt
    let single_path := base_path ++ "/<" ++ st ++ ":" ++ safe_endpoint ep ++ "_id>"
    let api1 :=
      match pl with
      | some p =>
        let plural_cls :=
          match parent with
          | some (some l) => EffHandler.wrapped p l
          | _ => EffHandler.raw p
        api ++ [⟨plural_cls, base_path, plural_endpoint'⟩]
      | none => api
    let api2 :=
      match sg with
      | some s =>
        let single_cls :=
          match ld with
          | some l => EffHandler.wrapped s l
          | none => EffHandler.raw s
        api1 ++ [⟨single_cls, single_path, single_endpoint⟩]
      | none => api1
    registerChildren cs (some ld) api2 (plural_endpoint' ++ "-") single_path

/-- The `for child in self._children` loop at the end of
`register_routes` (source lines 174-177): each child is registered in
order, against the api state left by the previous one, with the parent's
loader visible through its `_parent` link. -/
def registerChildren : List Route → ParentInfo → List Registration →
    String → String → List Registration
  | [], _, api, _, _ => api
  | c :: rest, parent, api, endpoint, route =>
    registerChildren rest parent (c.register_routes parent api endpoint route)
      endpoint route

end

/-- `RootRoute.register_routes(api)` (source lines 66-72): register every
child with empty prefixes.  A `RootRoute` never sets `_parent` on its
children, so each child sees `_parent is None`. -/
def RootRoute.register_routes (children : List Route)
    (api : List Registration) : List Registration :=
  registerChildren children none api "" ""

/-! ### Helper lemmas -/

/-- `Char.ofNat` on a valid code point round-trips through `toNat`. -/
theorem toNat_ofNat_valid (n : Nat) (h : n.isValidChar) : (Char.ofNat n).toNat = n := by
  simp only [Char.ofNat]
  rw [dif_pos h]
  simp [Char.ofNatAux, Char.toNat, UInt32.toNat]

/-- For a lowercase ASCII letter `t` with uppercase form `u`, lowering a
character yields `t` exactly when the character is `t` or `u`. -/
theorem toLower_eq_iff (c t u : Char) (ht : t.toNat ≥ 97) (ht2 : t.toNat ≤ 122)
    (hu : u.toNat = t.toNat - 32) : c.toLower = t ↔ (c = t ∨ c = u) := by
  constructor
  · intro h
    simp only [Char.toLower] at h
    by_cases hr : c.toNat ≥ 65 ∧ c.toNat ≤ 90
    · rw [if_pos hr] at h
      right
      have hv : (c.toNat + 32).isValidChar := by left; omega
      have h2 : (Char.ofNat (c.toNat + 32)).toNat = c.toNat + 32 :=
        toNat_ofNat_valid _ hv
      rw [h] at h2
      apply Char.ext
      apply UInt32.toNat.inj
      show c.toNat = u.toNat
      omega
    · rw [if_neg hr] at h
      left; exact h
  · rintro (rfl | rfl)
    · simp only [Char.toLower]
      rw [if_neg (by omega)]
    · simp only [Char.toLower]
      rw [if_pos (by omega)]
      apply Char.ext
      apply UInt32.toNat.inj
      show (Char.ofNat _).toNat = t.toNat
      rw [toNat_ofNat_valid _ (by left; omega)]
      omega

/-- `lowerEndsWith e t` holds exactly when the last character of `e` is
`t` or its uppercase form `u` (for lowercase ASCII `t`). -/
theorem lowerEndsWith_iff (e : String) (t u : Char) (ht : t.toNat ≥ 97)
    (ht2 : t.toNat ≤ 122) (hu : u.toNat = t.toNat - 32) :
    lowerEndsWith e t = true ↔
      (e.data.getLast? = some t ∨ e.data.getLast? = some u) := by
  unfold lowerEndsWith
  cases hl : e.data.getLast? with
  | none => simp
  | some d =>
    simp only [beq_iff_eq, Option.some.injEq]
    exact toLower_eq_iff d t u ht ht2 hu

mutual

/-- `register_routes` only appends to the api state: its result is the
incoming registration list followed by the registrations the node would
emit against a fresh framework instance. -/
theorem register_routes_append (t : Route) (parent : ParentInfo)
    (api : List Registration) (e r : String) :
    t.register_routes parent api e r = api ++ t.register_routes parent [] e r := by
  cases t with
  | node ep rt pl sg st ld cs =>
    have key : ∀ (api' X : List Registration) (e' r' : String),
        registerChildren cs (some ld) (api' ++ X) e' r'
          = api' ++ registerChildren cs (some ld) X e' r' := by
      intro api' X e' r'
      rw [registerChildren_append cs (some ld) (api' ++ X) e' r',
        registerChildren_append cs (some ld) X e' r', List.append_assoc]
    rcases pl with _ | p <;> rcases sg with _ | s <;>
      simp only [Route.register_routes] <;>
      first
        | exact registerChildren_append cs (some ld) api _ _
        | (rw [List.nil_append]
           try rw [List.append_assoc]
           exact key api _ _ _)

/-- The child-registration loop only appends to the api state. -/
theorem registerChildren_append (cs : List Route) (parent : ParentInfo)
    (api : List Registration) (e r : String) :
    registerChildren cs parent api e r = api ++ registerChildren cs parent [] e r := by
  cases cs with
  | nil => simp [registerChildren]
  | cons c rest =>
    simp only [registerChildren]
    rw [registerChildren_append rest parent (c.register_routes parent api e r) e r,
      registerChildren_append rest parent (c.register_routes parent [] e r) e r,
      register_routes_append c parent api e r, List.append_assoc]

end

/-! ### Concrete fixtures -/

/-- A handler that records how it was dispatched: the body is the pair of
the positional argument list and the keyword values, the status code is
the number of keyword arguments. -/
def echoHandler : Handler :=
  ⟨fun args kwargs =>
    (PyVal.list [PyVal.list args, PyVal.list (kwargs.map Prod.snd)],
      Int.ofNat kwargs.length)⟩

/-- A loader whose result is the dict `{"account": <obj 1>}`. -/
def dictLoader : Loader := fun _ _ => .dict [("account", PyVal.obj 1)]

/-- A loader whose result is `LoaderResponse(body="not found", code=404)`. -/
def respLoader : Loader := fun _ _ => .response ⟨PyVal.str "not found", 404⟩

/-- A loader whose result is the Python list `[1, 2]` (a `list`, not a
`tuple`). -/
def listLoader : Loader := fun _ _ => .pylist [PyVal.int 1, PyVal.int 2]

/-! ### C1 -/

/-- C1, counterexample: the claim says a dict loader result makes the
wrapped `dispatch_request` call the inner handler with an empty
positional-argument list.  With the recording inner handler, an original
positional argument `7` and a loader returning
`{"account": <obj 1>}`, the wrapped dispatch does **not** equal the inner
handler called with empty positionals and that dict: the original
positional argument is still passed through. -/
theorem C1_counterexample :
    wrapped_dispatch dictLoader echoHandler [PyVal.int 7] [] ≠
      echoHandler.dispatch_request [] [("account", PyVal.obj 1)] := by
  simp [wrapped_dispatch, dictLoader, echoHandler]

/-- C1 (amended): if the loader's result is a dict `d`, the wrapped
`dispatch_request` invokes the inner handler's `dispatch_request` with
`d` as the keyword arguments and with the positional arguments **as
originally passed** (the `dict` branch only replaces `kwargs`,
source lines 42-43). -/
theorem C1_dict_keeps_original_args (loader : Loader) (inner : Handler)
    (args : List PyVal) (kwargs d : Kwargs)
    (h : loader args kwargs = .dict d) :
    wrapped_dispatch loader inner args kwargs = inner.dispatch_request args d := by
  unfold wrapped_dispatch
  rw [h]

/-- C1, witness: the amended theorem applied to the dict loader at the
concrete input `args = [7]`, `kwargs = []`. -/
theorem C1_witness :
    dictLoader [PyVal.int 7] [] = .dict [("account", PyVal.obj 1)] ∧
      wrapped_dispatch dictLoader echoHandler [PyVal.int 7] [] =
        echoHandler.dispatch_request [PyVal.int 7] [("account", PyVal.obj 1)] :=
  ⟨rfl, C1_dict_keeps_original_args dictLoader echoHandler [PyVal.int 7] []
    [("account", PyVal.obj 1)] rfl⟩

/-! ### C5 -/

/-- C5: if the loader returns `LoaderResponse(b, c)`, the wrapped
`dispatch_request` returns exactly the pair `(b, c)`.  The conclusion
holds for **every** inner handler and does not mention it, so the inner
handler's `dispatch_request` is never invoked (source lines 35-36
short-circuit before the delegation on line 49). -/
theorem C5_loader_response_short_circuits (loader : Loader) (inner : Handler)
    (args : List PyVal) (kwargs : Kwargs) (b : PyVal) (c : Int)
    (h : loader args kwargs = .response ⟨b, c⟩) :
    wrapped_dispatch loader inner args kwargs = (b, c) := by
  unfold wrapped_dispatch
  rw [h]

/-- C5, witness: a loader returning `LoaderResponse("not found", 404)`
makes the wrapped dispatch return `("not found", 404)`. -/
theorem C5_witness :
    respLoader [] [] = .response ⟨PyVal.str "not found", 404⟩ ∧
      wrapped_dispatch respLoader echoHandler [] [] = (PyVal.str "not found", 404) :=
  ⟨rfl, C5_loader_response_short_circuits respLoader echoHandler [] []
    (PyVal.str "not found") 404 rfl⟩

/-! ### C10 -/

/-- C10: the `type(loader_resp) == tuple` test is an exact runtime-type
test, so a Python `list` result falls through to the final `else` branch
(source lines 45-47): the inner handler is invoked with the whole list as
the sole positional argument and empty keyword arguments, not with its
elements spread as the positional-argument list. -/
theorem C10_list_is_sole_positional_arg (loader : Loader) (inner : Handler)
    (args : List PyVal) (kwargs : Kwargs) (vs : List PyVal)
    (h : loader args kwargs = .pylist vs) :
    wrapped_dispatch loader inner args kwargs =
      inner.dispatch_request [PyVal.list vs] [] := by
  unfold wrapped_dispatch
  rw [h]

/-- C10, witness: a loader returning the list `[1, 2]` makes the inner
handler receive that whole list as its one positional argument. -/
theorem C10_witness :
    listLoader [] [] = .pylist [PyVal.int 1, PyVal.int 2] ∧
      wrapped_dispatch listLoader echoHandler [] [] =
        echoHandler.dispatch_request [PyVal.list [PyVal.int 1, PyVal.int 2]] [] :=
  ⟨rfl, C10_list_is_sole_positional_arg listLoader echoHandler [] []
    [PyVal.int 1, PyVal.int 2] rfl⟩

/-! ### C6 -/

/-- C6: assuming no loader-source conflict, constructing a `Route`
succeeds exactly when the endpoint's last character is neither `s` nor
`S`; when it is, construction fails with the endpoint-validation error.
Only the last character is inspected (`endpoint.lower().endswith('s')`,
source lines 112-115). -/
theorem C6_endpoint_singular_check (e r : String) (pl sg : Option Resource)
    (cs : List Route) (st : String) (ld : Option Loader)
    (hconf : (∀ s, sg = some s → s.restful_loader = none) ∨ ld = none) :
    ((∃ t, Route.init e r pl sg cs st ld = .ok t) ↔
      ¬(e.data.getLast? = some 's' ∨ e.data.getLast? = some 'S')) ∧
    ((e.data.getLast? = some 's' ∨ e.data.getLast? = some 'S') →
      Route.init e r pl sg cs st ld =
        .error ("Endpoints must be singular. Passed endpoint " ++ e
          ++ " with route " ++ r)) := by
  have hs := lowerEndsWith_iff e 's' 'S' (by decide) (by decide) (by decide)
  constructor
  · constructor
    · rintro ⟨t, ht⟩ hcontra
      have hb : lowerEndsWith e 's' = true := hs.mpr hcontra
      simp [Route.init, hb] at ht
    · intro hnot
      have hb : lowerEndsWith e 's' = false := by
        cases hbb : lowerEndsWith e 's'
        · rfl
        · exact absurd (hs.mp hbb) hnot
      rcases sg with _ | s
      · exact ⟨.node e r pl none st ld cs, by simp [Route.init, hb]⟩
      · rcases hrl : s.restful_loader with _ | rl
        · exact ⟨.node e r pl (some s) st ld cs, by simp [Route.init, hb, hrl]⟩
        · rcases hconf with hA | hB
          · rw [hA s rfl] at hrl
            cases hrl
          · subst hB
            exact ⟨.node e r pl (some s) st (some rl) cs,
              by simp [Route.init, hb, hrl]⟩
  · intro hlast
    have hb : lowerEndsWith e 's' = true := hs.mpr hlast
    simp [Route.init, hb]

/-- C6, witness: `"user"` (no loader sources, so no conflict) constructs
successfully, and its last character is neither `s` nor `S`. -/
theorem C6_witness :
    ((∀ s : Resource, (none : Option Resource) = some s → s.restful_loader = none) ∨
      (none : Option Loader) = none) ∧
    (((∃ t, Route.init "user" "/users" none none [] "int" none = .ok t) ↔
      ¬(("user".data.getLast? = some 's') ∨ ("user".data.getLast? = some 'S'))) ∧
    ((("user".data.getLast? = some 's') ∨ ("user".data.getLast? = some 'S')) →
      Route.init "user" "/users" none none [] "int" none =
        .error ("Endpoints must be singular. Passed endpoint " ++ "user"
          ++ " with route " ++ "/users"))) :=
  ⟨Or.inr rfl, C6_endpoint_singular_check "user" "/users" none none [] "int" none
    (Or.inr rfl)⟩

/-! ### C8 -/

/-- C8, counterexample: the claim's pluralization rule, read with a
case-sensitive final-`y` test, predicts `"toY"` (which does not end in
the character `y`) pluralizes to `"toYs"`; the code lowercases before
testing and produces `"toies"`. -/
theorem C8_counterexample :
    plural_endpoint "toY" = "toies" ∧ "toies" ≠ "toYs" :=
  ⟨rfl, by decide⟩

/-- C8 (amended): the derived plural endpoint drops the final character
and appends `ies` when the endpoint ends in `y` **or `Y`** (the test is
case-insensitive, source line 140), and appends `s` otherwise; in
particular `user ↦ users`, `category ↦ categories`, `class ↦ classs`. -/
theorem C8_pluralization :
    plural_endpoint "user" = "users" ∧
    plural_endpoint "category" = "categories" ∧
    plural_endpoint "class" = "classs" ∧
    ∀ e : String, plural_endpoint e =
      if e.data.getLast? = some 'y' ∨ e.data.getLast? = some 'Y'
      then String.mk e.data.dropLast ++ "ies" else e ++ "s" := by
  refine ⟨rfl, rfl, rfl, ?_⟩
  intro e
  have hy := lowerEndsWith_iff e 'y' 'Y' (by decide) (by decide) (by decide)
  unfold plural_endpoint
  by_cases h : e.data.getLast? = some 'y' ∨ e.data.getLast? = some 'Y'
  · rw [if_pos h, if_pos (hy.mpr h)]
  · rw [if_neg h, if_neg (fun hb => h (hy.mp hb))]

/-! ### C7 -/

/-- The `restful_loader` capability a singular resource may expose. -/
def capLoader : Loader := fun _ _ => .other (PyVal.int 1)

/-- A singular resource that exposes a `restful_loader` capability. -/
def resWithCap : Resource := ⟨"single_with_cap", some capLoader⟩

/-- A loader passed explicitly as the `loader` argument. -/
def explicitLoader : Loader := fun _ _ => .other (PyVal.int 2)

/-- C7, counterexample: the duplicate-loader error message is the same
fixed string for two nodes with different endpoints and route fragments,
so it does not identify the offending endpoint or route fragment. -/
theorem C7_counterexample :
    Route.init "user" "/users" none (some resWithCap) [] "int" (some explicitLoader)
      = .error "Please specify either `single.restful_loader` or `loader`" ∧
    Route.init "client" "/accounts" none (some resWithCap) [] "int" (some explicitLoader)
      = .error "Please specify either `single.restful_loader` or `loader`" :=
  ⟨rfl, rfl⟩

/-- C7 (amended): giving both an explicit `loader` argument and a single
handler with a `restful_loader` capability fails at construction time
(never deferred to registration), but with the fixed message
"Please specify either `single.restful_loader` or `loader`", which does
not identify the endpoint or route fragment; a node with neither source
has no loader, and a node with exactly one source gets that loader
(source lines 130-136). -/
theorem C7_loader_source_uniqueness (e r : String) (pl : Option Resource)
    (sname : String) (rl l : Loader) (cs : List Route) (st : String)
    (h : lowerEndsWith e 's' = false) :
    (Route.init e r pl (some ⟨sname, some rl⟩) cs st (some l) =
      .error "Please specify either `single.restful_loader` or `loader`") ∧
    (Route.init e r pl none cs st none = .ok (.node e r pl none st none cs)) ∧
    (Route.init e r pl (some ⟨sname, none⟩) cs st none =
      .ok (.node e r pl (some ⟨sname, none⟩) st none cs)) ∧
    (Route.init e r pl (some ⟨sname, none⟩) cs st (some l) =
      .ok (.node e r pl (some ⟨sname, none⟩) st (some l) cs)) ∧
    (Route.init e r pl (some ⟨sname, some rl⟩) cs st none =
      .ok (.node e r pl (some ⟨sname, some rl⟩) st (some rl) cs)) := by
  refine ⟨?_, ?_, ?_, ?_, ?_⟩ <;> simp [Route.init, h]

/-- C7, witness: the amended theorem at endpoint `"user"`, route
`"/users"`, with the concrete capability and explicit loaders. -/
theorem C7_witness :
    lowerEndsWith "user" 's' = false ∧
    Route.init "user" "/users" none (some ⟨"single_with_cap", some capLoader⟩) []
        "int" (some explicitLoader) =
      .error "Please specify either `single.restful_loader` or `loader`" :=
  ⟨rfl, (C7_loader_source_uniqueness "user" "/users" none "single_with_cap"
    capLoader explicitLoader [] "int" rfl).1⟩

/-! ### C2 -/

/-- The plural handler `U` of the example tree. -/
def U_res : Resource := ⟨"U", none⟩

/-- The single handler `u` of the example tree. -/
def u_res : Resource := ⟨"u", none⟩

/-- The plural handler `P` of the example tree. -/
def P_res : Resource := ⟨"P", none⟩

/-- The single handler `p` of the example tree. -/
def p_res : Resource := ⟨"p", none⟩

/-- The loader `L` of node A of the example tree. -/
def L_loader : Loader := fun args _ => .other (PyVal.list args)

/-- Node B: endpoint `post`, route `/posts`, plural `P`, single `p`,
no loader. -/
def routeB : Route := .node "post" "/posts" (some P_res) (some p_res) "int" none []

/-- Node A: endpoint `user`, route `/users`, plural `U`, single `u`,
loader `L`, child B. -/
def routeA : Route :=
  .node "user" "/users" (some U_res) (some u_res) "int" (some L_loader) [routeB]

/-- C2, counterexample: registering the example tree produces the endpoint
names `users`, `user`, `users-posts`, `users-post` — the child endpoint
prefix is the parent's **plural** endpoint name plus `-` (source line 177),
so the last two differ from the claimed `user-posts` and `user-post`. -/
theorem C2_counterexample :
    (Route.init "post" "/posts" (some P_res) (some p_res) [] "int" none = .ok routeB) ∧
    (Route.init "user" "/users" (some U_res) (some u_res) [routeB] "int"
      (some L_loader) = .ok routeA) ∧
    (RootRoute.register_routes [routeA] []).map Registration.endpoint =
      ["users", "user", "users-posts", "users-post"] ∧
    (RootRoute.register_routes [routeA] []).map Registration.endpoint ≠
      ["users", "user", "user-posts", "user-post"] := by
  refine ⟨rfl, rfl, rfl, ?_⟩
  have hv : (RootRoute.register_routes [routeA] []).map Registration.endpoint =
      ["users", "user", "users-posts", "users-post"] := rfl
  rw [hv]
  decide

/-- C2 (amended): registering the example tree produces exactly four
registrations: `U` unwrapped at `/users` under `users`; `u` wrapped with
`L` at `/users/<int:user_id>` under `user`; `P` wrapped with `L` (parent A
has a loader) at `/users/<int:user_id>/posts` under `users-posts`; and `p`
unwrapped at `/users/<int:user_id>/posts/<int:post_id>` under
`users-post`. -/
theorem C2_example_tree_registrations :
    (Route.init "post" "/posts" (some P_res) (some p_res) [] "int" none = .ok routeB) ∧
    (Route.init "user" "/users" (some U_res) (some u_res) [routeB] "int"
      (some L_loader) = .ok routeA) ∧
    RootRoute.register_routes [routeA] [] =
      [⟨EffHandler.raw U_res, "/users", "users"⟩,
       ⟨EffHandler.wrapped u_res L_loader, "/users/<int:user_id>", "user"⟩,
       ⟨EffHandler.wrapped P_res L_loader, "/users/<int:user_id>/posts", "users-posts"⟩,
       ⟨EffHandler.raw p_res, "/users/<int:user_id>/posts/<int:post_id>", "users-post"⟩] :=
  ⟨rfl, rfl, rfl⟩

/-! ### C3 -/

/-- C3: every node hands each child the endpoint prefix
`inherited-prefix ++ its-plural-endpoint ++ "-"` and the path prefix
`inherited-path ++ its-route-fragment ++ "/<idType:safeEndpoint_id>"`
(its single-item path), whatever its own handlers contribute (`own`);
and a node with neither a plural nor a single handler contributes no
registration of its own, only these prefixes (source lines 144-177). -/
theorem C3_child_prefixes (ep rt st : String) (ld : Option Loader)
    (cs : List Route) (parent : ParentInfo) (e r : String)
    (api : List Registration) :
    (∀ pl sg : Option Resource, ∃ own : List Registration,
      Route.register_routes (.node ep rt pl sg st ld cs) parent api e r =
        registerChildren cs (some ld) (api ++ own)
          (e ++ plural_endpoint ep ++ "-")
          (r ++ rt ++ "/<" ++ st ++ ":" ++ safe_endpoint ep ++ "_id>")) ∧
    (Route.register_routes (.node ep rt none none st ld cs) parent api e r =
      registerChildren cs (some ld) api
        (e ++ plural_endpoint ep ++ "-")
        (r ++ rt ++ "/<" ++ st ++ ":" ++ safe_endpoint ep ++ "_id>")) := by
  constructor
  · intro pl sg
    rcases pl with _ | p <;> rcases sg with _ | s <;>
      simp only [Route.register_routes]
    · exact ⟨[], by rw [List.append_nil]⟩
    · exact ⟨_, rfl⟩
    · exact ⟨_, rfl⟩
    · exact ⟨_, by rw [List.append_assoc]⟩
  · rfl

/-! ### C4 -/

/-- The loader on the grandparent node of `grandTree`. -/
def gLoader : Loader := fun _ _ => .other (PyVal.int 3)

/-- The plural handler on the grandchild node of `grandTree`. -/
def PC_res : Resource := ⟨"PC", none⟩

/-- A three-level tree: root node `alpha` **with** a loader, middle node
`beta` without one, leaf `gamma` with a plural handler. -/
def grandTree : Route :=
  .node "alpha" "/as" none none "int" (some gLoader)
    [.node "beta" "/bs" none none "int" none
      [.node "gamma" "/cs" (some PC_res) none "int" none []]]

/-- C4: a node's plural handler is registered wrapped exactly when the
node's immediate parent exists and has a loader, and then with that
parent's loader (first conjunct — note the node's own loader `ld` is
universally quantified and absent from the result, so it is never applied
to the plural handler); with no parent, or a parent without a loader, the
plural handler is registered unwrapped (second and third conjuncts); and
a grandparent's loader does not reach the plural handler when the
immediate parent has none (fourth conjunct, on `grandTree`). -/
theorem C4_plural_loader_inheritance :
    (∀ (ep rt : String) (p : Resource) (sg : Option Resource) (st : String)
        (ld : Option Loader) (cs : List Route) (e r : String) (l : Loader),
      (Route.register_routes (.node ep rt (some p) sg st ld cs)
          (some (some l)) [] e r).head? =
        some ⟨EffHandler.wrapped p l, r ++ rt, e ++ plural_endpoint ep⟩) ∧
    (∀ (ep rt : String) (p : Resource) (sg : Option Resource) (st : String)
        (ld : Option Loader) (cs : List Route) (e r : String),
      (Route.register_routes (.node ep rt (some p) sg st ld cs) none [] e r).head? =
        some ⟨EffHandler.raw p, r ++ rt, e ++ plural_endpoint ep⟩) ∧
    (∀ (ep rt : String) (p : Resource) (sg : Option Resource) (st : String)
        (ld : Option Loader) (cs : List Route) (e r : String),
      (Route.register_routes (.node ep rt (some p) sg st ld cs)
          (some none) [] e r).head? =
        some ⟨EffHandler.raw p, r ++ rt, e ++ plural_endpoint ep⟩) ∧
    RootRoute.register_routes [grandTree] [] =
      [⟨EffHandler.raw PC_res, "/as/<int:alpha_id>/bs/<int:beta_id>/cs",
        "alphas-betas-gammas"⟩] := by
  refine ⟨?_, ?_, ?_, rfl⟩ <;>
    (intro ep rt p sg st ld cs e r
     try intro l) <;>
    rcases sg with _ | s <;>
      (simp only [Route.register_routes]
       rw [registerChildren_append]
       rfl)

/-! ### C9 -/

/-- C9: the registrations emitted for a tree are a pure function of the
tree: against any prior framework state `api`, `register_routes` appends
exactly the sequence it would produce against a fresh instance, so two
fresh instances receive identical sequences of
(handler, path, endpoint-name) registrations.  (The embedding is a
translation of source lines 144-177, which read the node fields and
assign none of them.) -/
theorem C9_registration_pure (cs : List Route) (api : List Registration) :
    RootRoute.register_routes cs api = api ++ RootRoute.register_routes cs [] := by
  unfold RootRoute.register_routes
  exact registerChildren_append cs none api "" ""
